import Mathlib

/-!
Verification of the session-lifecycle behaviour of a small hapi.js server
(`src/index.js`) that combines yar cookie sessions backed by a catbox-redis
cache with a custom authentication scheme and an `onPreResponse` TTL
reconciliation extension.

The embedding models one client interacting with the server.  A server state
holds the cache (an association list from session id to cache entry), the
client's session cookie, and a counter used to mint fresh session ids.
`processRequest` runs one full request through the pipeline stages of the
source: route lookup, session resolution, the authentication gate
(`my-scheme`), the route handler, yar's end-of-request flush (which writes
the payload with the default TTL and sets the cookie with the default TTL),
and the app's `onPreResponse` extension which, for routes flagged
`app.yarring`, rewrites the cache entry's TTL and the cookie's TTL to the
extended value when the session's `remember` flag is set.

The `evict` parameter of `processRequest` models the documented race in
which the external cache drops the entry between yar's flush and the
reconciliation extension's `cache.get`.
-/

namespace HapiYar

/-- `oneDay` from the source: the default TTL in milliseconds. -/
def oneDay : Nat := 86400000

/-- The extended "remember me" TTL: `oneDay * 365` in the source. -/
def extendedTTL : Nat := oneDay * 365

/-- The session payload stored under yar's `data` key.  The POST `/login`
handler writes `{username, remember: !!remember, auth: true}`. -/
structure Payload where
  username : String
  remember : Bool
  auth : Bool
deriving DecidableEq, Repr

/-- A catbox cache entry for one session id: the stored session payload for
the `data` key (possibly absent) together with the entry's TTL. -/
structure CacheEntry where
  data : Option Payload
  ttl : Nat
deriving DecidableEq, Repr

/-- The client-side session cookie.  `inlineData` is the payload data yar
would inline into the cookie; with `maxCookieSize: 0` everything is forced
server-side and the cookie carries only the session id. -/
structure Cookie where
  id : Nat
  inlineData : Option Payload
  ttl : Nat
deriving DecidableEq, Repr

/-- Server state for one client: the cache keyed by session id, the cookie
held by the client, and a counter for minting fresh session ids. -/
structure ServerState where
  cache : List (Nat × CacheEntry)
  cookie : Option Cookie
  nextId : Nat
deriving DecidableEq, Repr

/-- Cache read by session id (`cache.get` keyed on `{segment, id}`). -/
def lookupEntry : List (Nat × CacheEntry) → Nat → Option CacheEntry
  | [], _ => none
  | (k, e) :: rest, sid => if k = sid then some e else lookupEntry rest sid

/-- Cache write by session id (`cache.set`): replaces the entry. -/
def setEntry : List (Nat × CacheEntry) → Nat → CacheEntry → List (Nat × CacheEntry)
  | [], sid, e => [(sid, e)]
  | (k, e0) :: rest, sid, e =>
    if k = sid then (sid, e) :: rest else (k, e0) :: setEntry rest sid e

/-- Cache eviction of a session id (external TTL expiry / drop). -/
def dropEntry : List (Nat × CacheEntry) → Nat → List (Nat × CacheEntry)
  | [], _ => []
  | (k, e) :: rest, sid =>
    if k = sid then dropEntry rest sid else (k, e) :: dropEntry rest sid

/-- Outcome of the `my-scheme` authenticate function. -/
inductive AuthOutcome where
  | authenticated (identity : String)
  | unauthenticated
deriving DecidableEq, Repr

/-- The `my-scheme` authenticate logic: `data && data.auth` grants
`h.authenticated({credentials: data.username})`, otherwise
`Boom.unauthorized` is thrown. -/
def authenticate : Option Payload → AuthOutcome
  | some d => if d.auth then AuthOutcome.authenticated d.username else AuthOutcome.unauthenticated
  | none => AuthOutcome.unauthenticated

/-- HTTP methods used by the route table. -/
inductive Method where
  | get
  | post
deriving DecidableEq, Repr

/-- Per-route auth mode: `required` (the server default installed by
`server.auth.default`) or `try` (explicit per-route override). -/
inductive AuthMode where
  | required
  | tryMode
deriving DecidableEq, Repr

/-- A route's configuration: method, path, the `app.yarring` flag read by
the reconciliation extension, and the auth mode. -/
structure Route where
  method : Method
  path : String
  yarring : Bool
  mode : AuthMode
deriving DecidableEq, Repr

def homeRoute : Route :=
  { method := Method.get, path := "/", yarring := false, mode := AuthMode.tryMode }

def loginPageRoute : Route :=
  { method := Method.get, path := "/login", yarring := false, mode := AuthMode.tryMode }

def loginPostRoute : Route :=
  { method := Method.post, path := "/login", yarring := true, mode := AuthMode.tryMode }

def logoutRoute : Route :=
  { method := Method.get, path := "/logout", yarring := false, mode := AuthMode.required }

def securedRoute : Route :=
  { method := Method.get, path := "/secured", yarring := false, mode := AuthMode.required }

def userPageRoute : Route :=
  { method := Method.get, path := "/user", yarring := false, mode := AuthMode.required }

def userPostRoute : Route :=
  { method := Method.post, path := "/user", yarring := true, mode := AuthMode.required }

/-- The route table of `server.route([...])`, with the default auth mode
`required` on every route that does not override it. -/
def routes : List Route :=
  [homeRoute, loginPageRoute, loginPostRoute, logoutRoute, securedRoute,
   userPageRoute, userPostRoute]

def findRoute (m : Method) (p : String) : Option Route :=
  routes.find? (fun r => r.method == m && r.path == p)

/-- A request body; `remember = none` models an omitted field, and `truthy`
models the `!!remember` coercion. -/
structure RequestBody where
  username : String
  password : Option String
  remember : Option Bool
deriving DecidableEq, Repr

def truthy : Option Bool → Bool
  | none => false
  | some b => b

structure Request where
  method : Method
  path : String
  body : RequestBody
deriving DecidableEq, Repr

/-- View names rendered by the handlers. -/
inductive ViewName where
  | defaultPage
  | loginPage
  | securedPage
  | userPage
deriving DecidableEq, Repr

/-- Responses: handler results plus the pipeline's failure outcomes.  Every
redirect in the source goes to `/`. -/
inductive Resp where
  | view (v : ViewName)
  | redirectHome
  | unauthorized
  | internalError
  | notFound
deriving DecidableEq, Repr

/-- Cache operations performed during one request, in order. -/
inductive CacheOp where
  | setOp (sid : Nat) (data : Option Payload) (ttl : Nat)
  | getOp (sid : Nat)
deriving DecidableEq, Repr

/-- The yar plugin options from the source: cookie name, `maxCookieSize: 0`,
server-side `expiresIn` and client-side `ttl`, both `oneDay`. -/
structure YarConfig where
  name : String
  maxCookieSize : Nat
  expiresIn : Nat
  ttl : Nat
deriving DecidableEq, Repr

def yarConfig : YarConfig :=
  { name := "my-yar-cookie", maxCookieSize := 0, expiresIn := oneDay, ttl := oneDay }

/-- Data yar inlines into the cookie at flush time: with `maxCookieSize` 0
it stores nothing in the cookie and everything server side. -/
def inlineStore (maxSize : Nat) (data : Option Payload) : Option Payload :=
  if maxSize = 0 then none else data

/-- The session id the request resolves to: the cookie's id, or a fresh one
for a cookieless client. -/
def sessionIdOf (st : ServerState) : Nat :=
  match st.cookie with
  | some c => c.id
  | none => st.nextId

def isNewSession (st : ServerState) : Bool :=
  st.cookie.isNone

/-- Session resolution: decode the cookie and load the `data` payload from
the cache; a missing cookie or missing/expired entry degrades to no
payload. -/
def resolveData (st : ServerState) : Option Payload :=
  match st.cookie with
  | some c =>
    match lookupEntry st.cache c.id with
    | some e => e.data
    | none => none
  | none => none

/-- Whether the auth gate lets the handler run: `required` mode rejects an
unauthenticated request, `try` mode always continues. -/
def gatePasses (mode : AuthMode) (outcome : AuthOutcome) : Bool :=
  match mode, outcome with
  | AuthMode.required, AuthOutcome.unauthenticated => false
  | _, _ => true

/-- What a handler produced: the session `data` after the handler, whether
it wrote the session, and its response. -/
structure HandlerOut where
  data : Option Payload
  modified : Bool
  response : Resp
deriving DecidableEq, Repr

/-- The route handlers of the source, acting on the request-local session
payload.  Reading a field of a `null` payload (`data.username`,
`data.remember`) throws in JS and surfaces as an internal error. -/
def runHandler (r : Route) (body : RequestBody) (data : Option Payload) : HandlerOut :=
  if r.method = Method.post ∧ r.path = "/login" then
    { data := some { username := body.username, remember := truthy body.remember, auth := true },
      modified := true, response := Resp.redirectHome }
  else if r.method = Method.get ∧ r.path = "/logout" then
    { data := none, modified := true, response := Resp.redirectHome }
  else if r.method = Method.post ∧ r.path = "/user" then
    match data with
    | some d =>
      { data := some { d with username := body.username },
        modified := true, response := Resp.redirectHome }
    | none => { data := none, modified := false, response := Resp.internalError }
  else if r.method = Method.get ∧ r.path = "/user" then
    { data := data, modified := false,
      response := match data with
                  | some _ => Resp.view ViewName.userPage
                  | none => Resp.internalError }
  else if r.method = Method.get ∧ r.path = "/" then
    { data := data, modified := false, response := Resp.view ViewName.defaultPage }
  else if r.method = Method.get ∧ r.path = "/login" then
    { data := data, modified := false, response := Resp.view ViewName.loginPage }
  else if r.method = Method.get ∧ r.path = "/secured" then
    { data := data, modified := false, response := Resp.view ViewName.securedPage }
  else
    { data := data, modified := false, response := Resp.notFound }

/-- Result of yar's end-of-request flush. -/
structure FlushOut where
  cache : List (Nat × CacheEntry)
  cookie : Option Cookie
  trace : List CacheOp
deriving DecidableEq, Repr

/-- yar's flush: when the session was written this request (or is new), the
payload is persisted with the default server-side TTL and the cookie is
(re)issued with the default client-side TTL; otherwise nothing happens. -/
def flushStep (cache0 : List (Nat × CacheEntry)) (cookie0 : Option Cookie) (sid : Nat)
    (data1 : Option Payload) (doFlush : Bool) : FlushOut :=
  if doFlush then
    { cache := setEntry cache0 sid { data := data1, ttl := yarConfig.expiresIn },
      cookie := some { id := sid, inlineData := inlineStore yarConfig.maxCookieSize data1,
                       ttl := yarConfig.ttl },
      trace := [CacheOp.setOp sid data1 yarConfig.expiresIn] }
  else
    { cache := cache0, cookie := cookie0, trace := [] }

/-- Result of the app's `onPreResponse` reconciliation extension. -/
structure ReconOut where
  cache : List (Nat × CacheEntry)
  cookie : Option Cookie
  response : Resp
  trace : List CacheOp
deriving DecidableEq, Repr

/-- The `onPreResponse` extension (registered `after: ['yar']`): for a
yarring route it reads `request.yar.get('data')`; a `null` payload makes
`.remember` throw (internal error).  When `remember` is set it chains
`cache.get(fullId).then(cached => cache.set(fullId, cached.item, oneDay*365))`
— on a missing entry `cached.item` rejects inside the detached promise and
no write happens — and unconditionally re-states the cookie as
`{id: request.yar.id}` with the extended TTL. -/
def reconcile (yarring : Bool) (cache1 : List (Nat × CacheEntry)) (cookie1 : Option Cookie)
    (sid : Nat) (data1 : Option Payload) (resp0 : Resp) : ReconOut :=
  if yarring then
    match data1 with
    | none =>
      { cache := cache1, cookie := cookie1, response := Resp.internalError, trace := [] }
    | some p =>
      if p.remember then
        match lookupEntry cache1 sid with
        | some e =>
          { cache := setEntry cache1 sid { data := e.data, ttl := extendedTTL },
            cookie := some { id := sid, inlineData := none, ttl := extendedTTL },
            response := resp0,
            trace := [CacheOp.getOp sid, CacheOp.setOp sid e.data extendedTTL] }
        | none =>
          { cache := cache1,
            cookie := some { id := sid, inlineData := none, ttl := extendedTTL },
            response := resp0,
            trace := [CacheOp.getOp sid] }
      else
        { cache := cache1, cookie := cookie1, response := resp0, trace := [] }
  else
    { cache := cache1, cookie := cookie1, response := resp0, trace := [] }

/-- Everything observable about one processed request. -/
structure StepResult where
  state : ServerState
  response : Resp
  handlerRan : Bool
  rejected : Bool
  authOutcome : AuthOutcome
  sessionData : Option Payload
  sid : Nat
  trace : List CacheOp
deriving DecidableEq, Repr

/-- One full request through the pipeline: route lookup, session
resolution, auth gate, handler, yar flush, optional eviction of the entry
by the external cache, and the TTL reconciliation extension. -/
def processRequest (st : ServerState) (req : Request) (evict : Bool) : StepResult :=
  match findRoute req.method req.path with
  | none =>
    { state := st, response := Resp.notFound, handlerRan := false, rejected := false,
      authOutcome := authenticate (resolveData st), sessionData := resolveData st,
      sid := sessionIdOf st, trace := [] }
  | some route =>
    let sid := sessionIdOf st
    let data0 := resolveData st
    let outcome := authenticate data0
    let pass := gatePasses route.mode outcome
    let act := if pass then runHandler route req.body data0
               else { data := data0, modified := false, response := Resp.unauthorized }
    let f := flushStep st.cache st.cookie sid act.data (act.modified || isNewSession st)
    let cacheE := if evict then dropEntry f.cache sid else f.cache
    let r := reconcile route.yarring cacheE f.cookie sid act.data act.response
    { state := { cache := r.cache, cookie := r.cookie,
                 nextId := if isNewSession st then st.nextId + 1 else st.nextId },
      response := r.response, handlerRan := pass, rejected := !pass,
      authOutcome := outcome, sessionData := act.data, sid := sid,
      trace := f.trace ++ r.trace }

/-- The state before any request: empty cache, no cookie. -/
def initState : ServerState :=
  { cache := [], cookie := none, nextId := 0 }

/-- States reachable by any sequence of requests (with the external cache
free to evict the entry mid-request). -/
inductive Reachable : ServerState → Prop where
  | init : Reachable initState
  | step (st : ServerState) (req : Request) (evict : Bool) :
      Reachable st → Reachable (processRequest st req evict).state

/-- TTL of the cache entry for a session id, if the entry exists. -/
def cacheTTLAt (st : ServerState) (sid : Nat) : Option Nat :=
  Option.map CacheEntry.ttl (lookupEntry st.cache sid)

/-- TTL of the client's cookie, if one is set. -/
def cookieTTL (st : ServerState) : Option Nat :=
  Option.map Cookie.ttl st.cookie

/-- Whether a trace contains an extended-TTL cache write. -/
def hasExtendedSet (t : List CacheOp) : Bool :=
  t.any (fun op => match op with
                   | CacheOp.setOp _ _ ttl => ttl == extendedTTL
                   | CacheOp.getOp _ => false)

/-- Whether an operation is the flush's default-TTL write. -/
def isDefaultSet : CacheOp → Bool
  | CacheOp.setOp _ _ ttl => ttl == yarConfig.expiresIn
  | CacheOp.getOp _ => false

/-- Whether an operation belongs to TTL reconciliation: its read-back, or
its extended-TTL write. -/
def isReconOp : CacheOp → Bool
  | CacheOp.setOp _ _ ttl => ttl == extendedTTL
  | CacheOp.getOp _ => true

/-- `flushPrecedes seen t` holds when every reconciliation operation in `t`
is preceded by a default-TTL flush write (`seen` records whether one was
already emitted). -/
def flushPrecedes : Bool → List CacheOp → Bool
  | _, [] => true
  | seen, op :: rest =>
    if isReconOp op then seen && flushPrecedes seen rest
    else flushPrecedes (seen || isDefaultSet op) rest

/-- Every cache entry that stores a payload stores it with `auth = true`:
payloads only ever enter the cache through the login/user handlers. -/
def soundCache (c : List (Nat × CacheEntry)) : Prop :=
  ∀ sid e p, lookupEntry c sid = some e → e.data = some p → p.auth = true

/-- The client's cookie never carries inlined payload data. -/
def cookieClean (st : ServerState) : Prop :=
  ∀ c, st.cookie = some c → c.inlineData = none

/-- A login body with the remember box ticked. -/
def bodyAliceRem : RequestBody :=
  { username := "alice", password := none, remember := some true }

/-- A login body with the remember field omitted. -/
def bodyAlice : RequestBody :=
  { username := "alice", password := none, remember := none }

/-- A profile-update body. -/
def bodyBob : RequestBody :=
  { username := "bob", password := none, remember := none }

def alicePayload : Payload :=
  { username := "alice", remember := true, auth := true }

def bobPayload : Payload :=
  { username := "bob", remember := true, auth := true }

/-- A state holding an authenticated remember-me session for alice, with
both TTLs still at the default value (as right after a login flush). -/
def stAlice : ServerState :=
  { cache := [(0, { data := some alicePayload, ttl := oneDay })],
    cookie := some { id := 0, inlineData := none, ttl := oneDay },
    nextId := 1 }

theorem lookup_setEntry (c : List (Nat × CacheEntry)) (sid : Nat) (v : CacheEntry) (x : Nat) :
    lookupEntry (setEntry c sid v) x = if x = sid then some v else lookupEntry c x := by
  induction c with
  | nil =>
    rcases eq_or_ne x sid with h | h
    · subst h
      simp [setEntry, lookupEntry]
    · simp [setEntry, lookupEntry, h, Ne.symm h]
  | cons kv rest ih =>
    obtain ⟨k, e0⟩ := kv
    rcases eq_or_ne k sid with hk | hk
    · subst hk
      rcases eq_or_ne x k with hx | hx
      · subst hx
        simp [setEntry, lookupEntry]
      · simp [setEntry, lookupEntry, hx, Ne.symm hx]
    · rcases eq_or_ne x sid with hx | hx
      · subst hx
        simp [setEntry, lookupEntry, hk, Ne.symm hk, ih]
      · rcases eq_or_ne k x with hkx | hkx
        · subst hkx
          simp [setEntry, lookupEntry, hk, hx, ih]
        · simp [setEntry, lookupEntry, hk, hx, hkx, ih]

theorem lookup_dropEntry (c : List (Nat × CacheEntry)) (sid : Nat) (x : Nat) :
    lookupEntry (dropEntry c sid) x = if x = sid then none else lookupEntry c x := by
  induction c with
  | nil => simp [dropEntry, lookupEntry]
  | cons kv rest ih =>
    obtain ⟨k, e0⟩ := kv
    rcases eq_or_ne k sid with hk | hk
    · subst hk
      rcases eq_or_ne x k with hx | hx
      · subst hx
        simp [dropEntry, lookupEntry, ih]
      · simp [dropEntry, lookupEntry, hx, Ne.symm hx, ih]
    · rcases eq_or_ne k x with hkx | hkx
      · subst hkx
        simp [dropEntry, lookupEntry, hk, ih]
      · simp [dropEntry, lookupEntry, hk, hkx, ih]

@[simp]
theorem lookup_setEntry_self (c : List (Nat × CacheEntry)) (sid : Nat) (v : CacheEntry) :
    lookupEntry (setEntry c sid v) sid = some v := by
  simp [lookup_setEntry]

@[simp]
theorem lookup_dropEntry_self (c : List (Nat × CacheEntry)) (sid : Nat) :
    lookupEntry (dropEntry c sid) sid = none := by
  simp [lookup_dropEntry]

theorem soundCache_set {c : List (Nat × CacheEntry)} {sid : Nat} {v : CacheEntry}
    (hc : soundCache c) (hv : ∀ p, v.data = some p → p.auth = true) :
    soundCache (setEntry c sid v) := by
  intro s e p hl hd
  rw [lookup_setEntry] at hl
  split at hl
  · cases hl
    exact hv p hd
  · exact hc s e p hl hd

theorem soundCache_drop {c : List (Nat × CacheEntry)} {sid : Nat} (hc : soundCache c) :
    soundCache (dropEntry c sid) := by
  intro s e p hl hd
  rw [lookup_dropEntry] at hl
  split at hl
  · cases hl
  · exact hc s e p hl hd

theorem resolveData_sound {st : ServerState} (h : soundCache st.cache) :
    ∀ p, resolveData st = some p → p.auth = true := by
  intro p hp
  unfold resolveData at hp
  split at hp
  next c hc =>
    split at hp
    next e he => exact h c.id e p he hp
    next => cases hp
  next => cases hp

theorem resolveData_eq_some {st : ServerState} {p : Payload} (h : resolveData st = some p) :
    ∃ c e, st.cookie = some c ∧ lookupEntry st.cache c.id = some e ∧ e.data = some p := by
  unfold resolveData at h
  split at h
  next c hc =>
    split at h
    next e he => exact ⟨c, e, hc, he, h⟩
    next => cases h
  next => cases h

theorem findRoute_mem {m : Method} {p : String} {r : Route} (h : findRoute m p = some r) :
    r ∈ routes :=
  List.mem_of_find?_eq_some h

theorem gatePasses_try (o : AuthOutcome) : gatePasses AuthMode.tryMode o = true := by
  cases o <;> rfl

theorem gatePasses_auth (m : AuthMode) (i : String) :
    gatePasses m (AuthOutcome.authenticated i) = true := by
  cases m <;> rfl

theorem runHandler_auth (r : Route) (body : RequestBody) (d0 : Option Payload)
    (h0 : ∀ p, d0 = some p → p.auth = true) :
    ∀ p, (runHandler r body d0).data = some p → p.auth = true := by
  intro p hp
  unfold runHandler at hp
  split_ifs at hp
  · have hp2 : some (Payload.mk body.username (truthy body.remember) true) = some p := hp
    cases hp2
    rfl
  · cases d0 with
    | some d =>
      have hp2 : some { d with username := body.username } = some p := hp
      cases hp2
      exact h0 d rfl
    | none =>
      have hp2 : (none : Option Payload) = some p := hp
      cases hp2
  all_goals exact h0 p hp

theorem runHandler_yarring_modified (r : Route) (body : RequestBody) (d0 : Option Payload)
    (hmem : r ∈ routes) (hy : r.yarring = true) (p : Payload)
    (hd : (runHandler r body d0).data = some p) :
    (runHandler r body d0).modified = true := by
  simp only [routes, List.mem_cons, List.not_mem_nil, or_false] at hmem
  rcases hmem with rfl | rfl | rfl | rfl | rfl | rfl | rfl
  · exact absurd hy (by decide)
  · exact absurd hy (by decide)
  · simp [runHandler, loginPostRoute]
  · exact absurd hy (by decide)
  · exact absurd hy (by decide)
  · exact absurd hy (by decide)
  · cases d0 with
    | some d => simp [runHandler, userPostRoute]
    | none =>
      have hd2 : (none : Option Payload) = some p := hd
      cases hd2

theorem flushPrecedes_true (l : List CacheOp) : flushPrecedes true l = true := by
  induction l with
  | nil => rfl
  | cons op rest ih =>
    unfold flushPrecedes
    split <;> simp [ih]

theorem flushStep_sound {c0 : List (Nat × CacheEntry)} {ck : Option Cookie} {sid : Nat}
    {d1 : Option Payload} {b : Bool} (hc : soundCache c0)
    (hd : ∀ p, d1 = some p → p.auth = true) :
    soundCache (flushStep c0 ck sid d1 b).cache := by
  unfold flushStep
  split
  · exact soundCache_set hc hd
  · exact hc

theorem reconcile_sound {y : Bool} {c1 : List (Nat × CacheEntry)} {ck : Option Cookie}
    {sid : Nat} {d1 : Option Payload} {r0 : Resp} (hc : soundCache c1) :
    soundCache (reconcile y c1 ck sid d1 r0).cache := by
  unfold reconcile
  split
  · split
    · exact hc
    next p =>
      split
      · split
        next e he => exact soundCache_set hc fun q hq => hc sid e q he hq
        next => exact hc
      · exact hc
  · exact hc

theorem flushStep_cookieClean {c0 : List (Nat × CacheEntry)} {ck : Option Cookie} {sid : Nat}
    {d1 : Option Payload} {b : Bool} (hck : ∀ c, ck = some c → c.inlineData = none) :
    ∀ c, (flushStep c0 ck sid d1 b).cookie = some c → c.inlineData = none := by
  unfold flushStep
  split
  · intro c hc
    cases hc
    simp [inlineStore, yarConfig]
  · exact hck

theorem reconcile_cookieClean {y : Bool} {c1 : List (Nat × CacheEntry)} {ck : Option Cookie}
    {sid : Nat} {d1 : Option Payload} {r0 : Resp}
    (hck : ∀ c, ck = some c → c.inlineData = none) :
    ∀ c, (reconcile y c1 ck sid d1 r0).cookie = some c → c.inlineData = none := by
  unfold reconcile
  split
  · split
    · exact hck
    next p =>
      split
      · split
        · intro c hc
          cases hc
          rfl
        · intro c hc
          cases hc
          rfl
      · exact hck
  · exact hck

theorem processRequest_sound (st : ServerState) (req : Request) (evict : Bool)
    (h : soundCache st.cache) :
    soundCache (processRequest st req evict).state.cache := by
  unfold processRequest
  split
  · exact h
  next route hroute =>
    dsimp only
    apply reconcile_sound
    have hact : ∀ p,
        (if gatePasses route.mode (authenticate (resolveData st)) = true
         then runHandler route req.body (resolveData st)
         else { data := resolveData st, modified := false,
                response := Resp.unauthorized }).data = some p → p.auth = true := by
      intro p
      split
      · exact runHandler_auth route req.body (resolveData st) (resolveData_sound h) p
      · exact resolveData_sound h p
    split
    · exact soundCache_drop (flushStep_sound h hact)
    · exact flushStep_sound h hact

theorem processRequest_cookieClean (st : ServerState) (req : Request) (evict : Bool)
    (h : cookieClean st) :
    cookieClean (processRequest st req evict).state := by
  unfold processRequest
  split
  · exact h
  next route hroute =>
    dsimp only
    intro c hc
    exact reconcile_cookieClean (flushStep_cookieClean h) c hc

theorem reachable_sound {st : ServerState} (h : Reachable st) : soundCache st.cache := by
  induction h with
  | init =>
    intro sid e p hl
    cases hl
  | step st req evict hst ih => exact processRequest_sound st req evict ih

theorem reachable_cookieClean {st : ServerState} (h : Reachable st) : cookieClean st := by
  induction h with
  | init =>
    intro c hc
    cases hc
  | step st req evict hst ih => exact processRequest_cookieClean st req evict ih

theorem flushPrecedes_flush_recon (c0 : List (Nat × CacheEntry)) (ck : Option Cookie)
    (sid : Nat) (d1 : Option Payload) (b : Bool) (y : Bool) (c1 : List (Nat × CacheEntry))
    (ck1 : Option Cookie) (r0 : Resp)
    (hb : y = true → ∀ p, d1 = some p → p.remember = true → b = true) :
    flushPrecedes false
      ((flushStep c0 ck sid d1 b).trace ++ (reconcile y c1 ck1 sid d1 r0).trace) = true := by
  cases y with
  | false => cases b <;> rfl
  | true =>
    cases d1 with
    | none => cases b <;> rfl
    | some p =>
      cases hrem : p.remember with
      | false =>
        cases b <;>
          simp [flushStep, reconcile, hrem, flushPrecedes, isReconOp, isDefaultSet,
                yarConfig, oneDay, extendedTTL]
      | true =>
        rw [hb rfl p rfl hrem]
        cases hlk : lookupEntry c1 sid with
        | some e =>
          simp [flushStep, reconcile, hrem, hlk, flushPrecedes, isReconOp, isDefaultSet,
                yarConfig, oneDay, extendedTTL]
        | none =>
          simp [flushStep, reconcile, hrem, hlk, flushPrecedes, isReconOp, isDefaultSet,
                yarConfig, oneDay, extendedTTL]

theorem findRoute_post_login : findRoute Method.post "/login" = some loginPostRoute := by
  decide

theorem findRoute_post_user : findRoute Method.post "/user" = some userPostRoute := by
  decide

theorem findRoute_get_logout : findRoute Method.get "/logout" = some logoutRoute := by
  decide

theorem authenticate_some_true {d : Payload} (h : d.auth = true) :
    authenticate (some d) = AuthOutcome.authenticated d.username := by
  simp [authenticate, h]

theorem authenticate_some_false {d : Payload} (h : d.auth = false) :
    authenticate (some d) = AuthOutcome.unauthenticated := by
  simp [authenticate, h]

theorem isNewSession_false_of_resolve {st : ServerState} {p : Payload}
    (h : resolveData st = some p) : isNewSession st = false := by
  obtain ⟨c, e, hc, -, -⟩ := resolveData_eq_some h
  simp [isNewSession, hc]

/-- Characterization of a POST `/login` request: the try-mode gate always
lets the handler run, the handler writes the fresh payload, the session is
flushed, and reconciliation runs on the yarring route. -/
theorem process_login (st : ServerState) (body : RequestBody) (evict : Bool) :
    processRequest st { method := Method.post, path := "/login", body := body } evict =
      let sid := sessionIdOf st
      let pl : Payload :=
        { username := body.username, remember := truthy body.remember, auth := true }
      let f := flushStep st.cache st.cookie sid (some pl) true
      let cacheE := if evict then dropEntry f.cache sid else f.cache
      let r := reconcile true cacheE f.cookie sid (some pl) Resp.redirectHome
      { state := { cache := r.cache, cookie := r.cookie,
                   nextId := if isNewSession st then st.nextId + 1 else st.nextId },
        response := r.response, handlerRan := true, rejected := false,
        authOutcome := authenticate (resolveData st), sessionData := some pl,
        sid := sid, trace := f.trace ++ r.trace } := by
  unfold processRequest
  dsimp only
  rw [findRoute_post_login]
  dsimp only [loginPostRoute]
  rw [gatePasses_try]
  simp [runHandler]

/-- Characterization of a POST `/user` request on an authenticated session:
the handler rewrites the username, the session is flushed, and
reconciliation runs. -/
theorem process_user_auth (st : ServerState) (body : RequestBody) (evict : Bool)
    (d : Payload) (hres : resolveData st = some d) (hauth : d.auth = true) :
    processRequest st { method := Method.post, path := "/user", body := body } evict =
      let sid := sessionIdOf st
      let pl : Payload := { d with username := body.username }
      let f := flushStep st.cache st.cookie sid (some pl) true
      let cacheE := if evict then dropEntry f.cache sid else f.cache
      let r := reconcile true cacheE f.cookie sid (some pl) Resp.redirectHome
      { state := { cache := r.cache, cookie := r.cookie, nextId := st.nextId },
        response := r.response, handlerRan := true, rejected := false,
        authOutcome := AuthOutcome.authenticated d.username, sessionData := some pl,
        sid := sid, trace := f.trace ++ r.trace } := by
  unfold processRequest
  dsimp only
  rw [findRoute_post_user]
  dsimp only [userPostRoute]
  rw [hres, authenticate_some_true hauth, gatePasses_auth]
  rw [isNewSession_false_of_resolve hres]
  simp [runHandler]

/-- Characterization of a POST `/user` request rejected by the required-mode
gate while the session still holds a payload (an unauthenticated payload):
no flush happens, but the yarring reconciliation extension still runs. -/
theorem process_user_unauth (st : ServerState) (body : RequestBody) (evict : Bool)
    (d : Payload) (hres : resolveData st = some d) (hfalse : d.auth = false) :
    processRequest st { method := Method.post, path := "/user", body := body } evict =
      let sid := sessionIdOf st
      let cacheE := if evict then dropEntry st.cache sid else st.cache
      let r := reconcile true cacheE st.cookie sid (some d) Resp.unauthorized
      { state := { cache := r.cache, cookie := r.cookie, nextId := st.nextId },
        response := r.response, handlerRan := false, rejected := true,
        authOutcome := AuthOutcome.unauthenticated, sessionData := some d,
        sid := sid, trace := r.trace } := by
  unfold processRequest
  dsimp only
  rw [findRoute_post_user]
  dsimp only [userPostRoute]
  rw [hres, authenticate_some_false hfalse]
  rw [isNewSession_false_of_resolve hres]
  simp [gatePasses, flushStep]

/-- A POST `/user` request on an empty session carries no session data (the
gate rejects it before the handler, which never writes). -/
theorem process_user_sessionData_none (st : ServerState) (body : RequestBody) (evict : Bool)
    (hres : resolveData st = none) :
    (processRequest st { method := Method.post, path := "/user", body := body } evict).sessionData =
      none := by
  unfold processRequest
  dsimp only
  rw [findRoute_post_user]
  dsimp only [userPostRoute]
  rw [hres]
  simp [authenticate, gatePasses]

/-- Characterization of a GET `/logout` request on an authenticated
session: the handler clears the payload, the (modified) session is flushed
with an empty payload, and the non-yarring route skips reconciliation. -/
theorem process_logout (st : ServerState) (body : RequestBody) (evict : Bool)
    (d : Payload) (hres : resolveData st = some d) (hauth : d.auth = true) :
    processRequest st { method := Method.get, path := "/logout", body := body } evict =
      let sid := sessionIdOf st
      let f := flushStep st.cache st.cookie sid none true
      let cacheE := if evict then dropEntry f.cache sid else f.cache
      { state := { cache := cacheE, cookie := f.cookie, nextId := st.nextId },
        response := Resp.redirectHome, handlerRan := true, rejected := false,
        authOutcome := AuthOutcome.authenticated d.username, sessionData := none,
        sid := sid, trace := f.trace } := by
  unfold processRequest
  dsimp only
  rw [findRoute_get_logout]
  dsimp only [logoutRoute]
  rw [hres, authenticate_some_true hauth, gatePasses_auth]
  rw [isNewSession_false_of_resolve hres]
  simp [runHandler, reconcile]

/-- Claim C2: the authenticator yields Authenticated with identity equal to
the payload's username exactly when a payload exists whose `auth` flag is
true; a missing payload or a false flag yields Unauthenticated. -/
theorem c2_authenticate_spec :
    (∀ data ident, authenticate data = AuthOutcome.authenticated ident ↔
      ∃ p, data = some p ∧ p.auth = true ∧ p.username = ident) ∧
    (∀ data, authenticate data = AuthOutcome.unauthenticated ↔
      ∀ p, data = some p → p.auth = false) := by
  constructor
  · intro data ident
    cases data with
    | none => simp [authenticate]
    | some d =>
      cases hd : d.auth with
      | true => simp [authenticate, hd]
      | false => simp [authenticate, hd]
  · intro data
    cases data with
    | none => simp [authenticate]
    | some d =>
      cases hd : d.auth with
      | true => simp [authenticate, hd]
      | false => simp [authenticate, hd]

/-- Claim C6: auth mode defaults to required with exactly GET `/`,
GET `/login` and POST `/login` overridden to try mode; on a required-mode
route an unauthenticated request is rejected as unauthorized before the
handler runs, while on a try-mode route the handler always runs and
observes the authentication outcome. -/
theorem c6_auth_gate :
    (∀ r, r ∈ routes →
      (r.mode = AuthMode.tryMode ↔
        (r.method = Method.get ∧ r.path = "/") ∨
        (r.method = Method.get ∧ r.path = "/login") ∨
        (r.method = Method.post ∧ r.path = "/login"))) ∧
    (∀ st req evict route, findRoute req.method req.path = some route →
      route.mode = AuthMode.required →
      authenticate (resolveData st) = AuthOutcome.unauthenticated →
      (processRequest st req evict).handlerRan = false ∧
      (processRequest st req evict).rejected = true) ∧
    (∀ st req evict route, findRoute req.method req.path = some route →
      route.mode = AuthMode.tryMode →
      (processRequest st req evict).handlerRan = true ∧
      (processRequest st req evict).authOutcome = authenticate (resolveData st)) := by
  refine ⟨by decide, ?_, ?_⟩
  · intro st req evict route hroute hmode hunauth
    unfold processRequest
    rw [hroute]
    dsimp only
    rw [hmode, hunauth]
    exact ⟨rfl, rfl⟩
  · intro st req evict route hroute hmode
    unfold processRequest
    rw [hroute]
    dsimp only
    rw [hmode]
    exact ⟨gatePasses_try _, rfl⟩

/-- Witness for C6 at GET `/secured` on the empty initial session. -/
theorem c6_witness :
    (processRequest initState { method := Method.get, path := "/secured", body := bodyBob } false).handlerRan =
      false ∧
    (processRequest initState { method := Method.get, path := "/secured", body := bodyBob } false).rejected =
      true :=
  c6_auth_gate.2.1 initState { method := Method.get, path := "/secured", body := bodyBob } false
    securedRoute (by decide) rfl (by decide)

/-- Claim C7: POST `/login` always runs the handler, which stores the
supplied username with `auth = true`, and the result is the same whatever
password is supplied (including none): no credential check happens. -/
theorem c7_no_credential_check (st : ServerState) (body : RequestBody) (evict : Bool) :
    (processRequest st { method := Method.post, path := "/login", body := body } evict).handlerRan =
      true ∧
    (processRequest st { method := Method.post, path := "/login", body := body } evict).sessionData =
      some { username := body.username, remember := truthy body.remember, auth := true } ∧
    ∀ pw,
      processRequest st
          { method := Method.post, path := "/login", body := { body with password := pw } } evict =
        processRequest st { method := Method.post, path := "/login", body := body } evict := by
  refine ⟨?_, ?_, ?_⟩
  · rw [process_login]
  · rw [process_login]
  · intro pw
    rw [process_login, process_login]

/-- Claim C1: the session-mutating (`yarring`) routes are exactly POST
`/login` and POST `/user`; for a request to either whose just-flushed
session payload has `remember = true` (with no mid-request eviction), the
cache entry's TTL and the cookie's TTL both end at the extended TTL, which
is never the default TTL. -/
theorem c1_remember_extends_ttls :
    (∀ r, r ∈ routes →
      (r.yarring = true ↔ r.method = Method.post ∧ (r.path = "/login" ∨ r.path = "/user"))) ∧
    ∀ st body path p, (path = "/login" ∨ path = "/user") →
      (processRequest st { method := Method.post, path := path, body := body } false).sessionData =
        some p →
      p.remember = true →
      cacheTTLAt (processRequest st { method := Method.post, path := path, body := body } false).state
          (processRequest st { method := Method.post, path := path, body := body } false).sid =
        some extendedTTL ∧
      cookieTTL (processRequest st { method := Method.post, path := path, body := body } false).state =
        some extendedTTL ∧
      extendedTTL ≠ yarConfig.expiresIn ∧ extendedTTL ≠ yarConfig.ttl := by
  refine ⟨by decide, ?_⟩
  intro st body path p hpath hsd hrem
  rcases hpath with rfl | rfl
  · rw [process_login] at hsd ⊢
    dsimp only at hsd
    cases hsd
    dsimp only at hrem ⊢
    simp [flushStep, reconcile, hrem, cacheTTLAt, cookieTTL, extendedTTL, yarConfig, oneDay]
  · rcases hres : resolveData st with _ | d
    · rw [process_user_sessionData_none st body false hres] at hsd
      cases hsd
    · cases hauth : d.auth with
      | true =>
        rw [process_user_auth st body false d hres hauth] at hsd ⊢
        dsimp only at hsd
        cases hsd
        dsimp only at hrem ⊢
        simp [flushStep, reconcile, hrem, cacheTTLAt, cookieTTL, extendedTTL, yarConfig, oneDay]
      | false =>
        rw [process_user_unauth st body false d hres hauth] at hsd ⊢
        dsimp only at hsd
        cases hsd
        dsimp only at hrem ⊢
        obtain ⟨c, e, hc, he, hed⟩ := resolveData_eq_some hres
        simp [reconcile, hrem, cacheTTLAt, cookieTTL, sessionIdOf, hc, he,
              extendedTTL, yarConfig, oneDay]

/-- Witness for C1: POST `/login` with remember ticked from the empty
initial state ends with both TTLs extended. -/
theorem c1_witness :
    cacheTTLAt
        (processRequest initState { method := Method.post, path := "/login", body := bodyAliceRem }
          false).state
        (processRequest initState { method := Method.post, path := "/login", body := bodyAliceRem }
          false).sid =
      some extendedTTL ∧
    cookieTTL
        (processRequest initState { method := Method.post, path := "/login", body := bodyAliceRem }
          false).state =
      some extendedTTL := by
  have h := c1_remember_extends_ttls.2 initState bodyAliceRem "/login" alicePayload
    (Or.inl rfl) (by decide) rfl
  exact ⟨h.1, h.2.1⟩

/-- Claim C5: POST `/login` with the remember field omitted or falsy stores
`remember = false`, leaves the cache entry and the cookie at the default
TTL, and reconciliation performs no extended-TTL cache write. -/
theorem c5_default_ttl (st : ServerState) (body : RequestBody)
    (hrem : truthy body.remember = false) :
    (processRequest st { method := Method.post, path := "/login", body := body } false).sessionData =
      some { username := body.username, remember := false, auth := true } ∧
    lookupEntry
        (processRequest st { method := Method.post, path := "/login", body := body } false).state.cache
        (processRequest st { method := Method.post, path := "/login", body := body } false).sid =
      some { data := some { username := body.username, remember := false, auth := true },
             ttl := yarConfig.expiresIn } ∧
    cookieTTL (processRequest st { method := Method.post, path := "/login", body := body } false).state =
      some yarConfig.ttl ∧
    hasExtendedSet
        (processRequest st { method := Method.post, path := "/login", body := body } false).trace =
      false := by
  rw [process_login]
  dsimp only
  rw [hrem]
  simp [flushStep, reconcile, cookieTTL, hasExtendedSet, extendedTTL, yarConfig, oneDay]

/-- Witness for C5: a login for alice with the remember field omitted. -/
theorem c5_witness :
    truthy bodyAlice.remember = false ∧
    (processRequest initState { method := Method.post, path := "/login", body := bodyAlice }
        false).sessionData =
      some { username := "alice", remember := false, auth := true } :=
  ⟨rfl, (c5_default_ttl initState bodyAlice rfl).1⟩

/-- Claim C8: POST `/user` on an authenticated session changes only the
username of the payload — `auth` and `remember` keep their values — and the
TTLs are reconciled according to the existing remember flag. -/
theorem c8_user_update_frame (st : ServerState) (body : RequestBody) (d : Payload)
    (hres : resolveData st = some d) (hauth : d.auth = true) :
    (processRequest st { method := Method.post, path := "/user", body := body } false).sessionData =
      some { username := body.username, remember := d.remember, auth := d.auth } ∧
    cacheTTLAt (processRequest st { method := Method.post, path := "/user", body := body } false).state
        (processRequest st { method := Method.post, path := "/user", body := body } false).sid =
      some (if d.remember then extendedTTL else yarConfig.expiresIn) ∧
    cookieTTL (processRequest st { method := Method.post, path := "/user", body := body } false).state =
      some (if d.remember then extendedTTL else yarConfig.ttl) := by
  rw [process_user_auth st body false d hres hauth]
  dsimp only
  cases hrem : d.remember with
  | true => simp [flushStep, reconcile, hrem, cacheTTLAt, cookieTTL]
  | false => simp [flushStep, reconcile, hrem, cacheTTLAt, cookieTTL]

/-- Witness for C8: bob's profile update on alice's remember-me session. -/
theorem c8_witness :
    (processRequest stAlice { method := Method.post, path := "/user", body := bodyBob }
        false).sessionData =
      some { username := "bob", remember := true, auth := true } := by
  have h := c8_user_update_frame stAlice bodyBob alicePayload (by decide) rfl
  exact h.1

/-- Claim C3 counterexample: on a remember-me POST `/user` whose cache
entry is evicted between flush and reconciliation, the code still issues
the cookie with the extended TTL — the claim that the cookie keeps the
default TTL is false (the `h.state` call does not depend on the cache
read) — even though no cache write happens and the request completes. -/
theorem c3_counterexample :
    (processRequest stAlice { method := Method.post, path := "/user", body := bodyBob }
        true).state.cookie =
      some { id := 0, inlineData := none, ttl := extendedTTL } ∧
    lookupEntry
        (processRequest stAlice { method := Method.post, path := "/user", body := bodyBob }
          true).state.cache 0 =
      none ∧
    (processRequest stAlice { method := Method.post, path := "/user", body := bodyBob }
        true).response =
      Resp.redirectHome ∧
    extendedTTL ≠ yarConfig.ttl := by
  decide

/-- Claim C3 (amended): when the cache entry vanishes between flush and
reconciliation on a session-mutating request with `remember = true`,
reconciliation writes nothing to the cache and the request completes
without error, but the cookie is issued with the extended TTL (not the
default), because the cookie update runs regardless of the cache read. -/
theorem c3_evicted_reconciliation (st : ServerState) (body : RequestBody) (path : String)
    (p : Payload) (hpath : path = "/login" ∨ path = "/user")
    (hsd : (processRequest st { method := Method.post, path := path, body := body } true).sessionData =
      some p)
    (hrem : p.remember = true)
    (hran : (processRequest st { method := Method.post, path := path, body := body } true).handlerRan =
      true) :
    lookupEntry
        (processRequest st { method := Method.post, path := path, body := body } true).state.cache
        (processRequest st { method := Method.post, path := path, body := body } true).sid =
      none ∧
    hasExtendedSet
        (processRequest st { method := Method.post, path := path, body := body } true).trace =
      false ∧
    (processRequest st { method := Method.post, path := path, body := body } true).response =
      Resp.redirectHome ∧
    (processRequest st { method := Method.post, path := path, body := body } true).state.cookie =
      some { id := (processRequest st { method := Method.post, path := path, body := body } true).sid,
             inlineData := none, ttl := extendedTTL } := by
  rcases hpath with rfl | rfl
  · rw [process_login] at hsd ⊢
    dsimp only at hsd
    cases hsd
    dsimp only at hrem ⊢
    simp [flushStep, reconcile, hrem, hasExtendedSet, extendedTTL, yarConfig, oneDay]
  · rcases hres : resolveData st with _ | d
    · rw [process_user_sessionData_none st body true hres] at hsd
      cases hsd
    · cases hauth : d.auth with
      | true =>
        rw [process_user_auth st body true d hres hauth] at hsd ⊢
        dsimp only at hsd
        cases hsd
        dsimp only at hrem ⊢
        simp [flushStep, reconcile, hrem, hasExtendedSet, extendedTTL, yarConfig, oneDay]
      | false =>
        rw [process_user_unauth st body true d hres hauth] at hran
        cases hran

/-- Witness for the amended C3 at the concrete evicted-entry scenario. -/
theorem c3_witness :
    hasExtendedSet
        (processRequest stAlice { method := Method.post, path := "/user", body := bodyBob }
          true).trace =
      false ∧
    (processRequest stAlice { method := Method.post, path := "/user", body := bodyBob }
        true).response =
      Resp.redirectHome := by
  have h := c3_evicted_reconciliation stAlice bodyBob "/user" bobPayload
    (Or.inr rfl) (by decide) rfl rfl
  exact ⟨h.2.1, h.2.2.1⟩

/-- Claim C4 counterexample: after GET `/logout` on an authenticated
session the cache entry for the session id still exists — the flush
rewrites it with an empty payload — so the claim that logout deletes the
cache entry is false. -/
theorem c4_counterexample :
    (processRequest stAlice { method := Method.get, path := "/logout", body := bodyBob }
        false).response =
      Resp.redirectHome ∧
    lookupEntry
        (processRequest stAlice { method := Method.get, path := "/logout", body := bodyBob }
          false).state.cache 0 =
      some { data := none, ttl := yarConfig.expiresIn } := by
  decide

/-- Claim C4 (amended): GET `/logout` on an authenticated session removes
the session payload entirely; the cache entry is rewritten with an empty
payload rather than deleted; a subsequent resolve for the same session id
yields an empty payload and the authenticator yields Unauthenticated. -/
theorem c4_logout_clears (st : ServerState) (body : RequestBody) (d : Payload)
    (hres : resolveData st = some d) (hauth : d.auth = true) :
    (processRequest st { method := Method.get, path := "/logout", body := body } false).sessionData =
      none ∧
    lookupEntry
        (processRequest st { method := Method.get, path := "/logout", body := body } false).state.cache
        (processRequest st { method := Method.get, path := "/logout", body := body } false).sid =
      some { data := none, ttl := yarConfig.expiresIn } ∧
    resolveData (processRequest st { method := Method.get, path := "/logout", body := body } false).state =
      none ∧
    authenticate
        (resolveData
          (processRequest st { method := Method.get, path := "/logout", body := body } false).state) =
      AuthOutcome.unauthenticated := by
  rw [process_logout st body false d hres hauth]
  dsimp only
  simp [flushStep, resolveData, authenticate]

/-- Witness for the amended C4 on alice's authenticated session. -/
theorem c4_witness :
    resolveData
        (processRequest stAlice { method := Method.get, path := "/logout", body := bodyBob }
          false).state =
      none := by
  have h := c4_logout_clears stAlice bodyBob alicePayload (by decide) rfl
  exact h.2.2.1

/-- Claim C9: within any single request from a reachable state, every
reconciliation cache operation — its read-back and its extended-TTL write —
occurs strictly after the flush's default-TTL cache write in the request's
ordered cache-operation trace; the extended write never precedes or
interleaves with the default write. -/
theorem c9_flush_before_reconcile (st : ServerState) (req : Request) (evict : Bool)
    (hst : Reachable st) :
    flushPrecedes false (processRequest st req evict).trace = true := by
  have hs := reachable_sound hst
  unfold processRequest
  split
  · rfl
  next route hroute =>
    dsimp only
    apply flushPrecedes_flush_recon
    intro hy p hd1 hrem
    by_cases hpass : gatePasses route.mode (authenticate (resolveData st)) = true
    · rw [if_pos hpass] at hd1 ⊢
      rw [runHandler_yarring_modified route req.body (resolveData st) (findRoute_mem hroute) hy p hd1]
      simp
    · rw [if_neg hpass] at hd1
      dsimp only at hd1
      have hpa := resolveData_sound hs p hd1
      rw [hd1, authenticate_some_true hpa] at hpass
      exact absurd (gatePasses_auth route.mode p.username) hpass

/-- Witness for C9: a remember-me login from the initial state. -/
theorem c9_witness :
    flushPrecedes false
      (processRequest initState { method := Method.post, path := "/login", body := bodyAliceRem }
        false).trace = true :=
  c9_flush_before_reconcile initState
    { method := Method.post, path := "/login", body := bodyAliceRem } false Reachable.init

/-- Claim C10: the yar configuration forces all session data server-side
(`maxCookieSize = 0`), and in every reachable state the cookie inlines no
payload data — it carries only the session id, so the `auth` claim lives
only in the server-side cache entry. -/
theorem c10_cookie_only_id :
    yarConfig.maxCookieSize = 0 ∧ ∀ st, Reachable st → cookieClean st :=
  ⟨rfl, fun _ h => reachable_cookieClean h⟩

/-- Witness for C10 at the state reached by one remember-me login. -/
theorem c10_witness :
    ({ id := 0, inlineData := none, ttl := extendedTTL } : Cookie).inlineData = none :=
  c10_cookie_only_id.2 _
    (Reachable.step initState { method := Method.post, path := "/login", body := bodyAliceRem }
      false Reachable.init)
    { id := 0, inlineData := none, ttl := extendedTTL } (by decide)

end HapiYar
